import Mathlib

/-!
Verification of the DeliverNow backend order-lifecycle contract.

This file gives a shallow embedding, in Lean, of the data model and the
route handlers of the DeliverNow food-delivery backend that the design
specification talks about: the two order route modules (variant A, using
the Order schema with the fields user, deliveryStatus and statusHistory;
variant B, using the Order schema with the field customer and performing
best-effort synchronization of the Delivery record), the delete handlers
for customers, drivers and restaurants, the MenuItem save path, the
Delivery save path, and the dashboard percentage-change helper.

Conventions of the embedding:
- Mongo object ids become natural numbers.
- JavaScript numbers holding money become rationals; timestamps in
  milliseconds become integers.
- A nullable field becomes an Option.
- A collection becomes a list of documents; findById is List.find? on the
  id field; findByIdAndUpdate updates every document whose id matches and
  returns the updated document (ids are unique in the real store, so this
  coincides with Mongo behaviour); findByIdAndDelete is a filter.
- A route handler becomes a pure function from the database state and the
  request data to a pair of the HTTP response and the new database state.
- The clock is passed in explicitly as the parameter now.
-/

namespace DeliverNow

/-- HTTP response envelope: status code, success flag and message, as
produced by res.status(...).json. -/
structure Resp where
  status : Nat
  success : Bool
  message : String
deriving Repr, DecidableEq

/-! ### Dashboard helper (src/routes/dashboard.js) -/

/-- Embedding of calculatePercentageChange from src/routes/dashboard.js:
if previous is 0 it returns 100 when current is positive and 0 otherwise,
and otherwise it returns (current - previous) / previous * 100. -/
def calculatePercentageChange (current previous : Rat) : Rat :=
  if previous = 0 then (if current > 0 then 100 else 0)
  else (current - previous) / previous * 100

/-- Embedding of JavaScript Math.round and of the rounding performed by
Number.prototype.toFixed: round to the nearest integer, ties toward
positive infinity. -/
def jsRound (q : Rat) : Int :=
  Rat.floor (q + 1 / 2)

/-- Embedding of parseFloat(x.toFixed(1)): the one-decimal display
rounding applied to each percentage change in the stats response. -/
def toFixed1 (q : Rat) : Rat :=
  (jsRound (q * 10) : Rat) / 10

/-! ### MenuItem model (src/models/MenuItem.js) -/

/-- The stockManagement sub-object of a MenuItem. -/
structure StockManagement where
  trackStock : Bool
  currentStock : Int
  lowStockThreshold : Int
  isOutOfStock : Bool
deriving Repr, DecidableEq

/-- MenuItem document, restricted to the fields the save path and the
stock methods read or write. -/
structure MenuItem where
  name : String
  price : Rat
  isAvailable : Bool
  stockManagement : StockManagement
deriving Repr, DecidableEq

/-- Embedding of the pre-save middleware of menuItemSchema: when stock is
tracked, a zero currentStock forces isOutOfStock true and isAvailable
false, and a nonzero currentStock clears isOutOfStock but leaves
isAvailable untouched. -/
def menuItemPreSave (m : MenuItem) : MenuItem :=
  if m.stockManagement.trackStock then
    if m.stockManagement.currentStock = 0 then
      { m with
        stockManagement := { m.stockManagement with isOutOfStock := true },
        isAvailable := false }
    else
      { m with
        stockManagement := { m.stockManagement with isOutOfStock := false } }
  else m

/-- The new currentStock value computed by updateStock for a given
operation. -/
def applyStockOp (current quantity : Int) (operation : String) : Int :=
  if operation = "subtract" then max 0 (current - quantity)
  else if operation = "add" then current + quantity
  else if operation = "set" then max 0 quantity
  else current

/-- Embedding of menuItemSchema.methods.updateStock followed by the save
it returns (which triggers the pre-save middleware). -/
def updateStock (m : MenuItem) (quantity : Int) (operation : String) : MenuItem :=
  if m.stockManagement.trackStock = false then m
  else
    let stock : Int := applyStockOp m.stockManagement.currentStock quantity operation
    let sm := { m.stockManagement with
      currentStock := stock, isOutOfStock := decide (stock = 0) }
    let m1 := { m with stockManagement := sm }
    let m2 := if sm.isOutOfStock then { m1 with isAvailable := false } else m1
    menuItemPreSave m2

/-! ### Core records: users, deliveries, restaurants -/

/-- User (Account) document from the users collection, restricted to the
fields the handlers under verification read. The role discriminator of
the specification is the userType field. -/
structure User where
  id : Nat
  name : String
  email : String
  phone : String
  userType : String
  isActive : Bool
deriving Repr, DecidableEq

/-- Delivery document (src/models/Delivery.js), restricted to the fields
the status-sync path and the save path read or write. -/
structure Delivery where
  id : Nat
  order : Nat
  driver : Nat
  status : String
  startTime : Option Int
  endTime : Option Int
  actualDuration : Option Int
  updatedAt : Int
deriving Repr, DecidableEq

/-- Embedding of the pre-save middleware of deliverySchema: refresh
updatedAt and, when both startTime and endTime are set, derive
actualDuration as Math.round of the difference in minutes. -/
def deliveryPreSave (d : Delivery) (now : Int) : Delivery :=
  let d1 := { d with updatedAt := now }
  match d1.startTime, d1.endTime with
  | some s, some e =>
      { d1 with actualDuration := some (jsRound (((e - s : Int) : Rat) / (1000 * 60))) }
  | _, _ => d1

/-- Restaurant document, restricted to the fields the delete handler
reads. -/
structure Restaurant where
  id : Nat
  name : String
  image : Option String
  coverImage : Option String
  isActive : Bool
deriving Repr, DecidableEq

/-! ### Order schema, variant A
(the module in which every write also sets deliveryStatus; fields user,
deliveryStatus, statusHistory) -/

/-- One element of the items array of an order. -/
structure OrderItem where
  name : String
  price : Rat
  quantity : Rat
  subtotal : Option Rat
deriving Repr, DecidableEq

/-- One entry of the statusHistory array of a variant-A order. -/
structure StatusEntry where
  status : String
  timestamp : Int
deriving Repr, DecidableEq

/-- Order document of the variant-A schema (fields user, deliveryStatus
and statusHistory). -/
structure OrderA where
  id : Nat
  orderNumber : String
  user : Nat
  restaurant : Nat
  driver : Option Nat
  items : List OrderItem
  status : String
  deliveryStatus : String
  paymentMethod : String
  subtotal : Rat
  deliveryFee : Rat
  tax : Rat
  totalAmount : Rat
  statusHistory : List StatusEntry
  updatedAt : Int
deriving Repr, DecidableEq

/-- Database state visible to the variant-A orders module. The module
never imports the Delivery model; the deliveries collection is carried
so that theorems can state that it is untouched. -/
structure StateA where
  users : List User
  orders : List OrderA
  deliveries : List Delivery
deriving Repr, DecidableEq

/-- Order.findById on the variant-A collection. -/
def findOrderA (orders : List OrderA) (id : Nat) : Option OrderA :=
  orders.find? (fun o => o.id == id)

/-- Update every variant-A order whose id matches (ids are unique in the
real store). -/
def updateWhereA (orders : List OrderA) (id : Nat) (f : OrderA → OrderA) :
    List OrderA :=
  orders.map (fun o => if o.id == id then f o else o)

/-- Order.findByIdAndUpdate with new true on the variant-A collection:
returns the updated document when found, together with the new
collection. -/
def findByIdAndUpdateA (orders : List OrderA) (id : Nat) (f : OrderA → OrderA) :
    Option OrderA × List OrderA :=
  match findOrderA orders id with
  | none => (none, orders)
  | some o => (some (f o), updateWhereA orders id f)

/-- JavaScript x || d for a numeric field: d when the field is absent or
zero (zero is falsy), the value otherwise. -/
def jsNumOr (x : Option Rat) (d : Rat) : Rat :=
  match x with
  | none => d
  | some v => if v = 0 then d else v

/-- JavaScript x || d for a string field: d when the field is absent or
empty, the value otherwise. -/
def jsStrOr (x : Option String) (d : String) : String :=
  match x with
  | none => d
  | some s => if s = "" then d else s

/-- Request body of POST /api/orders in the variant-A module. An absent
(or falsy) field is none. -/
structure CreateOrderBody where
  user : Option Nat
  restaurant : Option Nat
  items : Option (List OrderItem)
  deliveryFee : Option Rat
  subtotal : Option Rat
  tax : Option Rat
  totalAmount : Option Rat
  paymentMethod : Option String
deriving Repr, DecidableEq

/-- Embedding of POST /api/orders (variant A): validate presence of user,
restaurant and nonempty items, verify the user exists, then store a new
order with status pending and deliveryStatus pending, keeping the
supplied totalAmount verbatim. newId stands for the object id Mongo
assigns. -/
def createOrderA (st : StateA) (body : CreateOrderBody) (newId : Nat) (now : Int) :
    Resp × StateA :=
  match body.user, body.restaurant, body.items with
  | some uid, some rid, some items =>
    if items.isEmpty then
      (⟨400, false, "User, restaurant, and items are required"⟩, st)
    else
      match st.users.find? (fun u => u.id == uid) with
      | none => (⟨404, false, "User not found"⟩, st)
      | some _ =>
        let orderNumber :=
          "ORD-" ++ toString now ++ "-" ++ toString (st.orders.length + 1)
        let order : OrderA :=
          { id := newId
            orderNumber := orderNumber
            user := uid
            restaurant := rid
            driver := none
            items := items
            status := "pending"
            deliveryStatus := "pending"
            paymentMethod := jsStrOr body.paymentMethod "cash"
            subtotal := jsNumOr body.subtotal 0
            deliveryFee := jsNumOr body.deliveryFee 0
            tax := jsNumOr body.tax 0
            totalAmount := jsNumOr body.totalAmount 0
            statusHistory := []
            updatedAt := now }
        (⟨201, true, "Order created successfully"⟩,
         { st with orders := st.orders ++ [order] })
  | _, _, _ => (⟨400, false, "User, restaurant, and items are required"⟩, st)

/-- The closed set of statuses the variant-A status route accepts. -/
def validStatusesA : List String :=
  ["pending", "confirmed", "assigned", "picked_up", "in_transit", "delivered", "cancelled"]

/-- Embedding of PUT /api/orders/:id/status (variant A): reject a missing
or invalid status with 400 and no mutation, otherwise set status,
deliveryStatus and updatedAt and push a statusHistory entry through
findByIdAndUpdate. -/
def updateOrderStatusA (st : StateA) (orderId : Nat) (statusArg : Option String)
    (now : Int) : Resp × StateA :=
  match statusArg with
  | none => (⟨400, false, "Status is required"⟩, st)
  | some status =>
    if validStatusesA.contains status then
      match findByIdAndUpdateA st.orders orderId (fun o =>
          { o with
            status := status
            deliveryStatus := status
            updatedAt := now
            statusHistory := o.statusHistory ++ [⟨status, now⟩] }) with
      | (none, orders1) =>
          (⟨404, false, "Order not found"⟩, { st with orders := orders1 })
      | (some _, orders1) =>
          (⟨200, true, "Order status updated successfully"⟩,
           { st with orders := orders1 })
    else
      (⟨400, false,
        "Invalid status. Must be one of: " ++ String.intercalate ", " validStatusesA⟩, st)

/-- Embedding of PUT /api/orders/:id/assign-driver (variant A): validate
the driver id is present, resolves to a user, and that the user has the
driver userType; then set driver, status assigned and deliveryStatus
assigned on the order. The deliveries collection is never touched. -/
def assignDriverA (st : StateA) (orderId : Nat) (driverIdArg : Option Nat)
    (now : Int) : Resp × StateA :=
  match driverIdArg with
  | none => (⟨400, false, "Driver ID is required"⟩, st)
  | some driverId =>
    match st.users.find? (fun u => u.id == driverId) with
    | none => (⟨404, false, "Driver not found"⟩, st)
    | some driver =>
      if driver.userType ≠ "driver" then
        (⟨400, false, "User is not a driver"⟩, st)
      else
        match findByIdAndUpdateA st.orders orderId (fun o =>
            { o with
              driver := some driverId
              status := "assigned"
              deliveryStatus := "assigned"
              updatedAt := now }) with
        | (none, orders1) =>
            (⟨404, false, "Order not found"⟩, { st with orders := orders1 })
        | (some _, orders1) =>
            (⟨200, true, "Driver assigned successfully"⟩,
             { st with orders := orders1 })

/-! ### Order schema, variant B
(the module that synchronizes the Delivery record; field customer,
six-value status enum, no deliveryStatus field) -/

/-- Order document of the variant-B schema (field customer, no
deliveryStatus and no statusHistory). -/
structure OrderB where
  id : Nat
  orderNumber : String
  customer : Nat
  driver : Option Nat
  restaurant : Nat
  items : List OrderItem
  status : String
  totalAmount : Rat
  updatedAt : Int
deriving Repr, DecidableEq

/-- Database state visible to the variant-B orders module. -/
structure StateB where
  orders : List OrderB
  deliveries : List Delivery
deriving Repr, DecidableEq

/-- Order.findById on the variant-B collection. -/
def findOrderB (orders : List OrderB) (id : Nat) : Option OrderB :=
  orders.find? (fun o => o.id == id)

/-- Update every variant-B order whose id matches. -/
def updateWhereB (orders : List OrderB) (id : Nat) (f : OrderB → OrderB) :
    List OrderB :=
  orders.map (fun o => if o.id == id then f o else o)

/-- Order.findByIdAndUpdate with new true on the variant-B collection. -/
def findByIdAndUpdateB (orders : List OrderB) (id : Nat) (f : OrderB → OrderB) :
    Option OrderB × List OrderB :=
  match findOrderB orders id with
  | none => (none, orders)
  | some o => (some (f o), updateWhereB orders id f)

/-- Delivery.findOne with filter order equal to the given order id. -/
def findDeliveryForOrder (deliveries : List Delivery) (orderId : Nat) :
    Option Delivery :=
  deliveries.find? (fun d => d.order == orderId)

/-- Write back one delivery document: replace every entry whose id
matches by the new document after running the pre-save middleware. -/
def saveDelivery (deliveries : List Delivery) (d : Delivery) (now : Int) :
    List Delivery :=
  deliveries.map (fun x => if x.id == d.id then deliveryPreSave d now else x)

/-- The closed set of statuses the variant-B status route accepts. -/
def validStatusesB : List String :=
  ["pending", "confirmed", "picked_up", "in_transit", "delivered", "cancelled"]

/-- Embedding of the delivery-sync block of PUT /api/orders/:id/status
(variant B): map the new order status to a delivery status, set endTime
to now unconditionally on delivered, set startTime to now on picked up
and in transit only when it was unset, and fall back to assigned on
every other accepted status. -/
def syncDelivery (d : Delivery) (status : String) (now : Int) : Delivery :=
  if status = "delivered" then
    { d with status := "completed", endTime := some now }
  else if status = "picked_up" ∨ status = "in_transit" then
    let d1 := if d.startTime = none then { d with startTime := some now } else d
    { d1 with status := "ongoing" }
  else
    { d with status := "assigned" }

/-- Embedding of PUT /api/orders/:id/status (variant B): reject an
invalid status with 400 and no mutation; update the order status and
updatedAt; then, when a Delivery exists for the order, synchronize and
save it. The flag deliverySaveFails models a persistence failure of the
final delivery.save call: the handler then answers 500 from its catch
block, the delivery write is lost, and the already performed order write
stays in place. -/
def updateOrderStatusB (st : StateB) (orderId : Nat) (status : String)
    (now : Int) (deliverySaveFails : Bool) : Resp × StateB :=
  if validStatusesB.contains status then
    match findByIdAndUpdateB st.orders orderId (fun o =>
        { o with status := status, updatedAt := now }) with
    | (none, orders1) =>
        (⟨404, false, "Order not found"⟩, { st with orders := orders1 })
    | (some _, orders1) =>
      match findDeliveryForOrder st.deliveries orderId with
      | none =>
          (⟨200, true, "Order status updated successfully"⟩,
           { st with orders := orders1 })
      | some d =>
        if deliverySaveFails then
          (⟨500, false, "Error updating order"⟩, { st with orders := orders1 })
        else
          (⟨200, true, "Order status updated successfully"⟩,
           { orders := orders1
             deliveries := saveDelivery st.deliveries (syncDelivery d status now) now })
  else
    (⟨400, false, "Invalid status"⟩, st)

/-! ### Delete handlers
(src/routes/customers.js, src/routes/drivers.js, src/routes/restaurants.js) -/

/-- Full database state visible to the delete handlers. -/
structure AppDB where
  users : List User
  restaurants : List Restaurant
  orders : List OrderB
  deliveries : List Delivery
deriving Repr, DecidableEq

/-- The statuses the customer delete handler counts as active orders. -/
def customerActiveOrderStatuses : List String :=
  ["pending", "confirmed", "picked_up", "in_transit"]

/-- The statuses the driver delete handler counts as active deliveries. -/
def driverActiveDeliveryStatuses : List String :=
  ["assigned", "ongoing"]

/-- The statuses the driver delete handler counts as active orders. -/
def driverActiveOrderStatuses : List String :=
  ["confirmed", "picked_up", "in_transit"]

/-- Embedding of DELETE /api/customers/:id: 404 unless the id resolves
to a user with the customer userType; 400 when the customer has at least
one order in the active set; otherwise remove the user. Deliveries are
not consulted. -/
def deleteCustomer (db : AppDB) (id : Nat) : Resp × AppDB :=
  match db.users.find? (fun u => u.id == id) with
  | none => (⟨404, false, "Customer not found"⟩, db)
  | some u =>
    if u.userType ≠ "customer" then (⟨404, false, "Customer not found"⟩, db)
    else
      let activeOrders :=
        (db.orders.filter (fun o =>
          o.customer == id && customerActiveOrderStatuses.contains o.status)).length
      if activeOrders > 0 then
        (⟨400, false, "Cannot delete customer with active orders"⟩, db)
      else
        (⟨200, true, "Customer deleted successfully"⟩,
         { db with users := db.users.filter (fun u => u.id != id) })

/-- Embedding of DELETE /api/drivers/:id: 404 unless the id resolves to
a user with the driver userType; 400 when the driver has at least one
delivery with status assigned or ongoing, or at least one order with
status confirmed, picked up or in transit; otherwise remove the user. -/
def deleteDriver (db : AppDB) (id : Nat) : Resp × AppDB :=
  match db.users.find? (fun u => u.id == id) with
  | none => (⟨404, false, "Driver not found"⟩, db)
  | some u =>
    if u.userType ≠ "driver" then (⟨404, false, "Driver not found"⟩, db)
    else
      let activeDeliveries :=
        (db.deliveries.filter (fun d =>
          d.driver == id && driverActiveDeliveryStatuses.contains d.status)).length
      let activeOrders :=
        (db.orders.filter (fun o =>
          o.driver == some id && driverActiveOrderStatuses.contains o.status)).length
      if activeDeliveries > 0 || activeOrders > 0 then
        (⟨400, false, "Cannot delete driver with active deliveries or orders"⟩, db)
      else
        (⟨200, true, "Driver deleted successfully"⟩,
         { db with users := db.users.filter (fun u => u.id != id) })

/-- Embedding of DELETE /api/restaurants/:id: 404 when the id does not
resolve; otherwise delete the restaurant. The handler consults neither
the orders nor the deliveries collection (it only performs external
image cleanup, which has no database effect). -/
def deleteRestaurant (db : AppDB) (id : Nat) : Resp × AppDB :=
  match db.restaurants.find? (fun r => r.id == id) with
  | none => (⟨404, false, "Restaurant not found"⟩, db)
  | some _ =>
      (⟨200, true, "Restaurant deleted successfully"⟩,
       { db with restaurants := db.restaurants.filter (fun r => r.id != id) })

/-- The terminal order statuses of the specification: the order sequence
ends at delivered, and cancelled is the other absorbing state. -/
def orderTerminalStatuses : List String :=
  ["delivered", "cancelled"]

/-- The terminal delivery statuses of the specification. -/
def deliveryTerminalStatuses : List String :=
  ["completed", "cancelled"]

/-- Modelled from the spec: a restaurant has a non-terminal reference
when some order referencing it has a status outside the terminal set.
Used to state the deletion-safety claim the specification makes. -/
def restaurantHasNonTerminalRef (db : AppDB) (id : Nat) : Prop :=
  ∃ o ∈ db.orders, o.restaurant = id ∧ o.status ∉ orderTerminalStatuses

instance (db : AppDB) (id : Nat) : Decidable (restaurantHasNonTerminalRef db id) := by
  unfold restaurantHasNonTerminalRef
  infer_instance

/-! ### Helper lemmas -/

/-- Updating, via map, exactly the elements the search predicate selects
moves find? to the updated first match, provided the update preserves the
predicate. -/
lemma find?_map_update {α : Type} (p : α → Bool) (f : α → α)
    (hp : ∀ x, p x = true → p (f x) = true) :
    ∀ (l : List α) (o : α), l.find? p = some o →
      (l.map (fun x => if p x then f x else x)).find? p = some (f o) := by
  intro l
  induction l with
  | nil => intro o h; simp at h
  | cons x xs ih =>
    intro o h
    by_cases hpx : p x = true
    · rw [List.find?_cons_of_pos _ hpx] at h
      injection h with h
      subst h
      simp only [List.map_cons, hpx, if_true]
      exact List.find?_cons_of_pos _ (hp x hpx)
    · have hpx' : p x = false := by
        cases hx : p x
        · rfl
        · exact absurd hx hpx
      rw [List.find?_cons_of_neg _ (by simp [hpx'])] at h
      simp only [List.map_cons, hpx', if_false, Bool.false_eq_true]
      rw [List.find?_cons_of_neg _ (by simp [hpx'])]
      exact ih o h

/-- Replacing, via map, every element a selection predicate q matches by
one fixed new element moves find? for a predicate p to that new element,
provided p holds of the new element and q holds of the old first p
match. -/
lemma find?_map_replace {α : Type} (p q : α → Bool) (newElt : α)
    (hnew : p newElt = true) :
    ∀ (l : List α) (d : α), l.find? p = some d → q d = true →
      (l.map (fun x => if q x then newElt else x)).find? p = some newElt := by
  intro l
  induction l with
  | nil => intro d h; simp at h
  | cons x xs ih =>
    intro d h hd
    by_cases hpx : p x = true
    · rw [List.find?_cons_of_pos _ hpx] at h
      injection h with h
      subst h
      simp only [List.map_cons, hd, if_true]
      exact List.find?_cons_of_pos _ hnew
    · have hpx' : p x = false := by
        cases hx : p x
        · rfl
        · exact absurd hx hpx
      rw [List.find?_cons_of_neg _ (by simp [hpx'])] at h
      by_cases hqx : q x = true
      · simp only [List.map_cons, hqx, if_true]
        exact List.find?_cons_of_pos _ hnew
      · have hqx' : q x = false := by
          cases hx : q x
          · rfl
          · exact absurd hx hqx
        simp only [List.map_cons, hqx', if_false, Bool.false_eq_true]
        rw [List.find?_cons_of_neg _ (by simp [hpx'])]
        exact ih d h hd

/-- A filter has positive length exactly when some member satisfies the
predicate. -/
lemma filter_length_pos_iff {α : Type} (l : List α) (p : α → Bool) :
    0 < (l.filter p).length ↔ ∃ x ∈ l, p x = true := by
  rw [List.length_pos, ne_eq, List.filter_eq_nil_iff]
  push_neg
  simp

/-- The availability flag only ever goes down across the MenuItem save
path. -/
lemma menuItemPreSave_avail_mono (m : MenuItem) :
    (menuItemPreSave m).isAvailable = true → m.isAvailable = true := by
  unfold menuItemPreSave
  split
  · split
    · intro h; exact absurd h (by simp)
    · intro h; exact h
  · intro h; exact h

/-- The availability flag only ever goes down across updateStock. -/
lemma updateStock_avail_mono (m : MenuItem) (q : Int) (op : String) :
    (updateStock m q op).isAvailable = true → m.isAvailable = true := by
  intro h
  simp only [updateStock] at h
  split at h
  · exact h
  · have h2 := menuItemPreSave_avail_mono _ h
    split at h2
    · simp at h2
    · exact h2

/-- Membership image of updateWhereA: every order of the updated
collection is either an untouched original or the update of an
original. -/
lemma mem_updateWhereA {P : OrderA → Prop} (orders : List OrderA) (id : Nat)
    (f : OrderA → OrderA) (hP : ∀ o ∈ orders, P o) (hf : ∀ o ∈ orders, P (f o)) :
    ∀ o ∈ updateWhereA orders id f, P o := by
  intro o ho
  rcases List.mem_map.1 ho with ⟨a, ha, rfl⟩
  by_cases h : (a.id == id) = true
  · rw [if_pos h]
    exact hf a ha
  · rw [if_neg h]
    exact hP a ha

/-- The floor function of Batteries on the rationals agrees with the
floor of the FloorRing instance. -/
lemma ratFloor_eq_intFloor (a : Rat) : Rat.floor a = ⌊a⌋ := by
  rw [Rat.floor_def', Rat.floor_def]

/-- jsRound expressed through the FloorRing floor. -/
lemma jsRound_eq (q : Rat) : jsRound q = ⌊q + 1 / 2⌋ := by
  rw [jsRound, ratFloor_eq_intFloor]

/-! ### Claim C5 -/

/-- C5: calculatePercentageChange returns 0 when previous and current are
both 0, returns 100 when previous is 0 and current is positive, and
returns (current - previous) / previous * 100 when previous is nonzero;
in particular 0 for (0,0), 100 for (5,0), 50 for (15,10) and -50 for
(5,10); the function itself returns the unrounded value and one-decimal
rounding happens only in the displayed stats response (modelled by
toFixed1). -/
theorem calculatePercentageChange_spec :
    (∀ c p : Rat, p = 0 → c = 0 → calculatePercentageChange c p = 0) ∧
    (∀ c p : Rat, p = 0 → 0 < c → calculatePercentageChange c p = 100) ∧
    (∀ c p : Rat, p ≠ 0 → calculatePercentageChange c p = (c - p) / p * 100) ∧
    calculatePercentageChange 0 0 = 0 ∧
    calculatePercentageChange 5 0 = 100 ∧
    calculatePercentageChange 15 10 = 50 ∧
    calculatePercentageChange 5 10 = -50 ∧
    calculatePercentageChange 1 3 = -200 / 3 ∧
    toFixed1 (calculatePercentageChange 1 3) = -667 / 10 := by
  refine ⟨?_, ?_, ?_, ?_, ?_, ?_, ?_, ?_, ?_⟩
  · intro c p hp hc
    simp [calculatePercentageChange, hp, hc]
  · intro c p hp hc
    simp [calculatePercentageChange, hp, hc]
  · intro c p hp
    simp [calculatePercentageChange, hp]
  · norm_num [calculatePercentageChange]
  · norm_num [calculatePercentageChange]
  · norm_num [calculatePercentageChange]
  · norm_num [calculatePercentageChange]
  · norm_num [calculatePercentageChange]
  · have h1 : calculatePercentageChange 1 3 = -200 / 3 := by
      norm_num [calculatePercentageChange]
    rw [h1, toFixed1, jsRound_eq]
    have h2 : (-200 / 3 * 10 + 1 / 2 : Rat) = -3997 / 6 := by norm_num
    rw [h2]
    have h3 : ⌊(-3997 / 6 : Rat)⌋ = -667 := by
      rw [Int.floor_eq_iff]
      norm_num
    rw [h3]
    norm_num

/-- Witness for C5 at concrete inputs. -/
theorem calculatePercentageChange_spec_witness :
    calculatePercentageChange 15 10 = (15 - 10) / 10 * 100 ∧
    calculatePercentageChange 5 0 = 100 ∧
    calculatePercentageChange 0 0 = 0 :=
  ⟨calculatePercentageChange_spec.2.2.1 15 10 (by norm_num),
   calculatePercentageChange_spec.2.1 5 0 rfl (by norm_num),
   calculatePercentageChange_spec.1 0 0 rfl rfl⟩

/-! ### Claim C9 -/

/-- C9: on every save of a MenuItem with stock tracking on, a zero
currentStock sets isOutOfStock and forces isAvailable off, while a
positive currentStock clears isOutOfStock but never turns isAvailable
back on: the cascade is one way, and restocking through updateStock with
the add operation leaves a disabled item disabled. -/
theorem menuItemPreSave_stock_cascade :
    (∀ m : MenuItem, m.stockManagement.trackStock = true →
      m.stockManagement.currentStock = 0 →
      (menuItemPreSave m).stockManagement.isOutOfStock = true ∧
      (menuItemPreSave m).isAvailable = false) ∧
    (∀ m : MenuItem, m.stockManagement.trackStock = true →
      0 < m.stockManagement.currentStock →
      (menuItemPreSave m).stockManagement.isOutOfStock = false ∧
      (menuItemPreSave m).isAvailable = m.isAvailable) ∧
    (∀ m : MenuItem, (menuItemPreSave m).isAvailable = true →
      m.isAvailable = true) ∧
    (∀ (m : MenuItem) (q : Int), m.stockManagement.trackStock = true →
      m.isAvailable = false → (updateStock m q "add").isAvailable = false) := by
  refine ⟨?_, ?_, ?_, ?_⟩
  · intro m ht hz
    simp [menuItemPreSave, ht, hz]
  · intro m ht hpos
    have hz : ¬ m.stockManagement.currentStock = 0 := by omega
    simp [menuItemPreSave, ht, hz]
  · intro m
    exact menuItemPreSave_avail_mono m
  · intro m q ht hoff
    cases hres : (updateStock m q "add").isAvailable
    · rfl
    · exact absurd (updateStock_avail_mono m q "add" hres) (by simp [hoff])

/-- Witness for C9 at a concrete MenuItem. -/
theorem menuItemPreSave_stock_cascade_witness :
    (menuItemPreSave
      { name := "burger", price := 50, isAvailable := true,
        stockManagement :=
          { trackStock := true, currentStock := 0,
            lowStockThreshold := 5, isOutOfStock := false } }).isAvailable = false ∧
    (updateStock
      { name := "burger", price := 50, isAvailable := false,
        stockManagement :=
          { trackStock := true, currentStock := 0,
            lowStockThreshold := 5, isOutOfStock := true } } 7 "add").isAvailable = false :=
  ⟨(menuItemPreSave_stock_cascade.1
      { name := "burger", price := 50, isAvailable := true,
        stockManagement :=
          { trackStock := true, currentStock := 0,
            lowStockThreshold := 5, isOutOfStock := false } } rfl rfl).2,
   menuItemPreSave_stock_cascade.2.2.2
      { name := "burger", price := 50, isAvailable := false,
        stockManagement :=
          { trackStock := true, currentStock := 0,
            lowStockThreshold := 5, isOutOfStock := true } } 7 rfl rfl⟩

/-! ### Claim C3 -/

/-- C3: both variants of PUT /api/orders/:id/status reject a target
status outside their closed accepted set with a 400 client error and
leave the database state, and hence every order document with its
status, timestamps, deliveryStatus and status history, completely
unchanged. -/
theorem invalidStatus_rejected :
    (∀ (st : StateA) (orderId : Nat) (status : String) (now : Int),
      validStatusesA.contains status = false →
      updateOrderStatusA st orderId (some status) now =
        (⟨400, false,
          "Invalid status. Must be one of: " ++ String.intercalate ", " validStatusesA⟩,
         st)) ∧
    (∀ (st : StateB) (orderId : Nat) (status : String) (now : Int) (fails : Bool),
      validStatusesB.contains status = false →
      updateOrderStatusB st orderId status now fails =
        (⟨400, false, "Invalid status"⟩, st)) := by
  constructor
  · intro st orderId status now h
    simp only [updateOrderStatusA, h]
    rfl
  · intro st orderId status now fails h
    simp only [updateOrderStatusB, h]
    rfl

/-- Witness for C3: a made-up status is rejected by both variants with
no state change. -/
theorem invalidStatus_rejected_witness :
    updateOrderStatusA ⟨[], [], []⟩ 1 (some "flying") 0 =
      (⟨400, false,
        "Invalid status. Must be one of: " ++ String.intercalate ", " validStatusesA⟩,
       ⟨[], [], []⟩) ∧
    updateOrderStatusB ⟨[], []⟩ 1 "flying" 0 false =
      (⟨400, false, "Invalid status"⟩, ⟨[], []⟩) :=
  ⟨invalidStatus_rejected.1 ⟨[], [], []⟩ 1 "flying" 0 (by decide),
   invalidStatus_rejected.2 ⟨[], []⟩ 1 "flying" 0 false (by decide)⟩

/-! ### Claim C10 -/

/-- C10: in the variant-A orders module, every write path (order
creation, status update, driver assignment) writes the same value into
status and deliveryStatus, so the equality status = deliveryStatus is
preserved for every order created or updated through that module. -/
theorem statusEqDeliveryStatus_invariant :
    (∀ (st : StateA) (body : CreateOrderBody) (newId : Nat) (now : Int),
      (∀ o ∈ st.orders, o.status = o.deliveryStatus) →
      ∀ o ∈ (createOrderA st body newId now).2.orders, o.status = o.deliveryStatus) ∧
    (∀ (st : StateA) (orderId : Nat) (statusArg : Option String) (now : Int),
      (∀ o ∈ st.orders, o.status = o.deliveryStatus) →
      ∀ o ∈ (updateOrderStatusA st orderId statusArg now).2.orders,
        o.status = o.deliveryStatus) ∧
    (∀ (st : StateA) (orderId : Nat) (driverIdArg : Option Nat) (now : Int),
      (∀ o ∈ st.orders, o.status = o.deliveryStatus) →
      ∀ o ∈ (assignDriverA st orderId driverIdArg now).2.orders,
        o.status = o.deliveryStatus) := by
  refine ⟨?_, ?_, ?_⟩
  · intro st body newId now hinv o ho
    rcases hu : body.user with _ | uid <;>
      rcases hr : body.restaurant with _ | rid <;>
      rcases hi : body.items with _ | items <;>
      simp only [createOrderA, hu, hr, hi] at ho <;>
      try exact hinv o ho
    cases hempty : items.isEmpty
    · rcases hfu : st.users.find? (fun u => u.id == uid) with _ | u <;>
        simp only [hempty, hfu] at ho
      · exact hinv o ho
      · rcases List.mem_append.1 ho with h | h
        · exact hinv o h
        · rcases List.mem_singleton.1 h with rfl
          rfl
    · simp only [hempty] at ho
      exact hinv o ho
  · intro st orderId statusArg now hinv o ho
    rcases statusArg with _ | status
    · exact hinv o ho
    cases hv : validStatusesA.contains status
    · simp only [updateOrderStatusA, hv] at ho
      exact hinv o ho
    · rcases hfind : findOrderA st.orders orderId with _ | o1 <;>
        simp only [updateOrderStatusA, findByIdAndUpdateA, hv, hfind] at ho
      · exact hinv o ho
      · exact mem_updateWhereA st.orders orderId _ hinv (fun a _ => rfl) o ho
  · intro st orderId driverIdArg now hinv o ho
    rcases driverIdArg with _ | driverId
    · exact hinv o ho
    rcases hfu : st.users.find? (fun u => u.id == driverId) with _ | u
    · simp only [assignDriverA, hfu] at ho
      exact hinv o ho
    by_cases hut : u.userType = "driver"
    · rcases hfind : findOrderA st.orders orderId with _ | o1 <;>
        simp only [assignDriverA, findByIdAndUpdateA, hfu, hut, hfind,
          ne_eq, not_true_eq_false, if_false, Bool.false_eq_true] at ho
      · exact hinv o ho
      · exact mem_updateWhereA st.orders orderId _ hinv (fun a _ => rfl) o ho
    · simp only [assignDriverA, hfu, hut, ne_eq, not_false_eq_true, if_true] at ho
      exact hinv o ho

/-- A pending variant-A order used to exercise the invariant. -/
def c10Order : OrderA :=
  { id := 1, orderNumber := "ORD-1", user := 2, restaurant := 3,
    driver := none, items := [], status := "pending",
    deliveryStatus := "pending", paymentMethod := "cash",
    subtotal := 0, deliveryFee := 0, tax := 0, totalAmount := 50,
    statusHistory := [], updatedAt := 0 }

/-- Concrete variant-A state holding only that order. -/
def c10State : StateA := ⟨[], [c10Order], []⟩

/-- The order after the confirmed status update. -/
def c10Updated : OrderA :=
  { id := 1, orderNumber := "ORD-1", user := 2, restaurant := 3,
    driver := none, items := [], status := "confirmed",
    deliveryStatus := "confirmed", paymentMethod := "cash",
    subtotal := 0, deliveryFee := 0, tax := 0, totalAmount := 50,
    statusHistory := [{ status := "confirmed", timestamp := 5 }], updatedAt := 5 }

/-- Witness for C10: concrete state with one order whose fields agree,
preserved across a status update. -/
theorem statusEqDeliveryStatus_invariant_witness :
    (updateOrderStatusA c10State 1 (some "confirmed") 5).2.orders = [c10Updated] ∧
    c10Updated.status = c10Updated.deliveryStatus :=
  ⟨rfl,
   statusEqDeliveryStatus_invariant.2.1 c10State 1 (some "confirmed") 5
     (by simp [c10State, c10Order]) c10Updated (List.mem_singleton.mpr rfl)⟩

/-! ### Claim C7 -/

/-- C7: the assign-driver operation fails with an error and leaves the
database unchanged when the driver id does not resolve to a user or the
user does not have the driver userType; otherwise, for an existing
order, it sets the driver reference and the status assigned on the
order; and in every case it neither creates nor updates any Delivery
record. -/
theorem assignDriver_spec :
    (∀ (st : StateA) (orderId driverId : Nat) (now : Int),
      st.users.find? (fun u => u.id == driverId) = none →
      assignDriverA st orderId (some driverId) now =
        (⟨404, false, "Driver not found"⟩, st)) ∧
    (∀ (st : StateA) (orderId driverId : Nat) (now : Int) (u : User),
      st.users.find? (fun x => x.id == driverId) = some u →
      u.userType ≠ "driver" →
      assignDriverA st orderId (some driverId) now =
        (⟨400, false, "User is not a driver"⟩, st)) ∧
    (∀ (st : StateA) (orderId driverId : Nat) (now : Int) (u : User) (o : OrderA),
      st.users.find? (fun x => x.id == driverId) = some u →
      u.userType = "driver" →
      findOrderA st.orders orderId = some o →
      (assignDriverA st orderId (some driverId) now).1.status = 200 ∧
      findOrderA (assignDriverA st orderId (some driverId) now).2.orders orderId =
        some { o with
                driver := some driverId
                status := "assigned"
                deliveryStatus := "assigned"
                updatedAt := now }) ∧
    (∀ (st : StateA) (orderId : Nat) (driverIdArg : Option Nat) (now : Int),
      (assignDriverA st orderId driverIdArg now).2.deliveries = st.deliveries ∧
      (assignDriverA st orderId driverIdArg now).2.users = st.users) := by
  refine ⟨?_, ?_, ?_, ?_⟩
  · intro st orderId driverId now hfu
    simp only [assignDriverA, hfu]
  · intro st orderId driverId now u hfu hut
    simp only [assignDriverA, hfu, hut, ne_eq, not_false_eq_true, if_true]
  · intro st orderId driverId now u o hfu hut hfo
    have hfo2 : List.find? (fun (x : OrderA) => x.id == orderId) st.orders = some o := hfo
    constructor
    · simp only [assignDriverA, findByIdAndUpdateA, findOrderA, hfu, hut, hfo2,
        ne_eq, not_true_eq_false, if_false, Bool.false_eq_true]
    · simp only [assignDriverA, findByIdAndUpdateA, findOrderA, hfu, hut, hfo2,
        ne_eq, not_true_eq_false, if_false, Bool.false_eq_true,
        updateWhereA]
      exact find?_map_update (fun (x : OrderA) => x.id == orderId)
        (fun x => { x with
                     driver := some driverId
                     status := "assigned"
                     deliveryStatus := "assigned"
                     updatedAt := now })
        (fun x hx => hx) st.orders o hfo2
  · intro st orderId driverIdArg now
    rcases driverIdArg with _ | driverId
    · exact ⟨by trivial, by trivial⟩
    rcases hfu : st.users.find? (fun u => u.id == driverId) with _ | u <;>
      simp only [assignDriverA, findByIdAndUpdateA, hfu]
    · exact ⟨by trivial, by trivial⟩
    by_cases hut : u.userType = "driver"
    · rcases hfind : findOrderA st.orders orderId with _ | o1 <;>
        simp only [hut, hfind, ne_eq, not_true_eq_false, if_false,
          Bool.false_eq_true] <;>
        exact ⟨by trivial, by trivial⟩
    · simp only [hut, ne_eq, not_false_eq_true, if_true]
      exact ⟨by trivial, by trivial⟩

/-- Witness for C7: a driver user and a pending order; assignment binds
the driver and sets the status assigned without touching deliveries. -/
theorem assignDriver_spec_witness :
    (assignDriverA
        ⟨[{ id := 5, name := "Sipho", email := "s@x.com", phone := "072",
            userType := "driver", isActive := true }],
         [{ id := 1, orderNumber := "ORD-1", user := 2, restaurant := 3,
            driver := none, items := [], status := "pending",
            deliveryStatus := "pending", paymentMethod := "cash",
            subtotal := 0, deliveryFee := 0, tax := 0, totalAmount := 50,
            statusHistory := [], updatedAt := 0 }],
         []⟩ 1 (some 5) 77).1.status = 200 ∧
    findOrderA (assignDriverA
        ⟨[{ id := 5, name := "Sipho", email := "s@x.com", phone := "072",
            userType := "driver", isActive := true }],
         [{ id := 1, orderNumber := "ORD-1", user := 2, restaurant := 3,
            driver := none, items := [], status := "pending",
            deliveryStatus := "pending", paymentMethod := "cash",
            subtotal := 0, deliveryFee := 0, tax := 0, totalAmount := 50,
            statusHistory := [], updatedAt := 0 }],
         []⟩ 1 (some 5) 77).2.orders 1 =
      some { id := 1, orderNumber := "ORD-1", user := 2, restaurant := 3,
             driver := some 5, items := [], status := "assigned",
             deliveryStatus := "assigned", paymentMethod := "cash",
             subtotal := 0, deliveryFee := 0, tax := 0, totalAmount := 50,
             statusHistory := [], updatedAt := 77 } :=
  assignDriver_spec.2.2.1
    ⟨[{ id := 5, name := "Sipho", email := "s@x.com", phone := "072",
        userType := "driver", isActive := true }],
     [{ id := 1, orderNumber := "ORD-1", user := 2, restaurant := 3,
        driver := none, items := [], status := "pending",
        deliveryStatus := "pending", paymentMethod := "cash",
        subtotal := 0, deliveryFee := 0, tax := 0, totalAmount := 50,
        statusHistory := [], updatedAt := 0 }],
     []⟩ 1 5 77
    { id := 5, name := "Sipho", email := "s@x.com", phone := "072",
      userType := "driver", isActive := true }
    { id := 1, orderNumber := "ORD-1", user := 2, restaurant := 3,
      driver := none, items := [], status := "pending",
      deliveryStatus := "pending", paymentMethod := "cash",
      subtotal := 0, deliveryFee := 0, tax := 0, totalAmount := 50,
      statusHistory := [], updatedAt := 0 }
    rfl rfl rfl

/-! ### Claim C8 -/

/-- Sum of the per-item price times quantity values of an items array
(what a server-side recomputation of the total would produce). -/
def itemsSubtotalSum (items : List OrderItem) : Rat :=
  (items.map (fun i => i.price * i.quantity)).sum

/-- A supplied numeric field survives the JavaScript x || 0 defaulting
unchanged. -/
lemma jsNumOr_some (v : Rat) : jsNumOr (some v) 0 = v := by
  simp only [jsNumOr]
  split
  · rename_i h
    exact h.symm
  · rfl

/-- The spec scenario items: price times quantity equal to 10, 20 and
15, summing to 45. -/
def c8Items : List OrderItem :=
  [{ name := "item1", price := 10, quantity := 1, subtotal := none },
   { name := "item2", price := 10, quantity := 2, subtotal := none },
   { name := "item3", price := 5, quantity := 3, subtotal := none }]

/-- The spec scenario request body: totalAmount supplied independently
as 50. -/
def c8Body : CreateOrderBody :=
  { user := some 1, restaurant := some 2, items := some c8Items,
    deliveryFee := none, subtotal := none, tax := none,
    totalAmount := some 50, paymentMethod := none }

/-- The spec scenario state: one existing user, no orders. -/
def c8State : StateA :=
  ⟨[{ id := 1, name := "Ayanda", email := "a@x.com", phone := "070",
      userType := "customer", isActive := true }], [], []⟩

/-- C8: order creation stores a supplied totalAmount verbatim for every
items array, performing no recomputation from and no validation against
the item subtotals; in the concrete spec scenario the items sum to 45
while the stored totalAmount is the supplied 50. -/
theorem createOrder_totalAmount_verbatim :
    (∀ (st : StateA) (body : CreateOrderBody) (newId : Nat) (now : Int)
       (uid rid : Nat) (items : List OrderItem) (v : Rat) (u : User),
      body.user = some uid →
      body.restaurant = some rid →
      body.items = some items →
      items ≠ [] →
      body.totalAmount = some v →
      st.users.find? (fun x => x.id == uid) = some u →
      (createOrderA st body newId now).1.status = 201 ∧
      ∃ ord : OrderA, (createOrderA st body newId now).2.orders = st.orders ++ [ord] ∧
        ord.totalAmount = v ∧ ord.items = items) ∧
    (itemsSubtotalSum c8Items = 45 ∧ (45 : Rat) ≠ 50 ∧
      ∃ ord : OrderA, (createOrderA c8State c8Body 9 1000).2.orders = [ord] ∧
        ord.totalAmount = 50) := by
  constructor
  · intro st body newId now uid rid items v u hu hr hi hne hv hfu
    have hempty : items.isEmpty = false := by
      cases items
      · exact absurd rfl hne
      · rfl
    constructor
    · simp only [createOrderA, hu, hr, hi, hempty, hfu, Bool.false_eq_true,
        if_false]
    · simp only [createOrderA, hu, hr, hi, hempty, hfu, hv, Bool.false_eq_true,
        if_false]
      exact ⟨_, rfl, jsNumOr_some v, rfl⟩
  · refine ⟨by norm_num [itemsSubtotalSum, c8Items], by norm_num, ?_⟩
    refine ⟨_, rfl, ?_⟩
    exact jsNumOr_some 50

/-- Witness for C8 at the spec scenario inputs. -/
theorem createOrder_totalAmount_verbatim_witness :
    (createOrderA c8State c8Body 9 1000).1.status = 201 ∧
    ∃ ord : OrderA, (createOrderA c8State c8Body 9 1000).2.orders =
        c8State.orders ++ [ord] ∧
      ord.totalAmount = 50 ∧ ord.items = c8Items :=
  createOrder_totalAmount_verbatim.1 c8State c8Body 9 1000 1 2 c8Items 50
    { id := 1, name := "Ayanda", email := "a@x.com", phone := "070",
      userType := "customer", isActive := true }
    rfl rfl rfl (by simp [c8Items]) rfl rfl

/-! ### Helper lemmas about the variant-B delivery synchronization -/

lemma syncDelivery_id (d : Delivery) (status : String) (now : Int) :
    (syncDelivery d status now).id = d.id := by
  unfold syncDelivery
  split
  · rfl
  · split
    · split <;> rfl
    · rfl

lemma syncDelivery_order (d : Delivery) (status : String) (now : Int) :
    (syncDelivery d status now).order = d.order := by
  unfold syncDelivery
  split
  · rfl
  · split
    · split <;> rfl
    · rfl

lemma syncDelivery_delivered (d : Delivery) (now : Int) :
    syncDelivery d "delivered" now =
      { d with status := "completed", endTime := some now } := by
  unfold syncDelivery
  rw [if_pos rfl]

lemma syncDelivery_ongoing (d : Delivery) (status : String) (now : Int)
    (h : status = "picked_up" ∨ status = "in_transit")
    (hne : status ≠ "delivered") :
    syncDelivery d status now =
      { (if d.startTime = none then { d with startTime := some now } else d) with
        status := "ongoing" } := by
  unfold syncDelivery
  rw [if_neg hne, if_pos h]

lemma syncDelivery_other (d : Delivery) (status : String) (now : Int)
    (h1 : status ≠ "delivered") (h2 : status ≠ "picked_up")
    (h3 : status ≠ "in_transit") :
    syncDelivery d status now = { d with status := "assigned" } := by
  unfold syncDelivery
  rw [if_neg h1, if_neg ?hor]
  case hor =>
    rintro (h | h)
    · exact h2 h
    · exact h3 h

lemma deliveryPreSave_fields (d : Delivery) (now : Int) :
    (deliveryPreSave d now).id = d.id ∧ (deliveryPreSave d now).order = d.order ∧
    (deliveryPreSave d now).status = d.status ∧
    (deliveryPreSave d now).startTime = d.startTime ∧
    (deliveryPreSave d now).endTime = d.endTime := by
  unfold deliveryPreSave
  rcases hs : d.startTime <;> rcases he : d.endTime <;> simp [hs, he]

lemma deliveryPreSave_actualDuration (d : Delivery) (now s e : Int)
    (hs : d.startTime = some s) (he : d.endTime = some e) :
    (deliveryPreSave d now).actualDuration =
      some (jsRound (((e - s : Int) : Rat) / (1000 * 60))) := by
  unfold deliveryPreSave
  simp [hs, he]

/-- Reduction of the variant-B status update when the status is valid,
the order exists and a delivery exists, and the delivery save succeeds. -/
lemma updateOrderStatusB_sync (st : StateB) (orderId : Nat) (status : String)
    (now : Int) (o : OrderB) (d : Delivery)
    (hv : validStatusesB.contains status = true)
    (ho : findOrderB st.orders orderId = some o)
    (hd : findDeliveryForOrder st.deliveries orderId = some d) :
    updateOrderStatusB st orderId status now false =
      (⟨200, true, "Order status updated successfully"⟩,
       { orders := updateWhereB st.orders orderId
           (fun x => { x with status := status, updatedAt := now })
         deliveries := saveDelivery st.deliveries (syncDelivery d status now) now }) := by
  simp only [updateOrderStatusB, findByIdAndUpdateB, ho, hd, hv, if_true,
    Bool.false_eq_true, if_false]

/-- Reduction of the variant-B status update when the status is valid,
the order exists and a delivery exists, and the delivery save fails:
the handler answers 500 but the order write stays. -/
lemma updateOrderStatusB_syncFail (st : StateB) (orderId : Nat) (status : String)
    (now : Int) (o : OrderB) (d : Delivery)
    (hv : validStatusesB.contains status = true)
    (ho : findOrderB st.orders orderId = some o)
    (hd : findDeliveryForOrder st.deliveries orderId = some d) :
    updateOrderStatusB st orderId status now true =
      (⟨500, false, "Error updating order"⟩,
       { orders := updateWhereB st.orders orderId
           (fun x => { x with status := status, updatedAt := now })
         deliveries := st.deliveries }) := by
  simp only [updateOrderStatusB, findByIdAndUpdateB, ho, hd, hv, if_true]

/-- Looking the delivery of the order up again after the synchronized
save returns the synchronized, pre-save-processed document. -/
lemma findDelivery_after_save (deliveries : List Delivery) (orderId : Nat)
    (d : Delivery) (status : String) (now : Int)
    (hd : findDeliveryForOrder deliveries orderId = some d) :
    findDeliveryForOrder (saveDelivery deliveries (syncDelivery d status now) now)
        orderId =
      some (deliveryPreSave (syncDelivery d status now) now) := by
  have hd2 : List.find? (fun x : Delivery => x.order == orderId) deliveries = some d := hd
  have hpd : ((fun x : Delivery => x.order == orderId) d) = true :=
    List.find?_some (p := fun x : Delivery => x.order == orderId) hd2
  have hnew : ((deliveryPreSave (syncDelivery d status now) now).order == orderId) = true := by
    rw [(deliveryPreSave_fields (syncDelivery d status now) now).2.1,
      syncDelivery_order]
    exact hpd
  have hq : ((fun x : Delivery => x.id == (syncDelivery d status now).id) d) = true := by
    simp [syncDelivery_id]
  exact find?_map_replace (fun x : Delivery => x.order == orderId)
    (fun x : Delivery => x.id == (syncDelivery d status now).id)
    (deliveryPreSave (syncDelivery d status now) now) hnew deliveries d hd2 hq

/-! ### Claim C1 -/

/-- A variant-B order in transit, used to exercise the delivery sync. -/
def c1Order : OrderB :=
  { id := 1, orderNumber := "ORD-9", customer := 4, driver := some 5,
    restaurant := 3, items := [], status := "in_transit", totalAmount := 100,
    updatedAt := 0 }

/-- A delivery for that order whose endTime is already set. -/
def c1Delivery : Delivery :=
  { id := 21, order := 1, driver := 5, status := "ongoing",
    startTime := some 0, endTime := some 600000, actualDuration := none,
    updatedAt := 0 }

/-- Concrete variant-B database state for the delivery-sync claims. -/
def c1State : StateB := ⟨[c1Order], [c1Delivery]⟩

/-- Counterexample to C1 as stated: the delivery of order 1 already has
endTime 600000, yet the delivered transition overwrites it with now; the
source sets endTime unconditionally, not only when unset. -/
theorem deliverySync_overwrites_endTime :
    (findDeliveryForOrder c1State.deliveries 1).map Delivery.endTime =
      some (some 600000) ∧
    (findDeliveryForOrder
        (updateOrderStatusB c1State 1 "delivered" 1200000 false).2.deliveries
        1).map Delivery.endTime = some (some 1200000) ∧
    (some (600000 : Int)) ≠ (some (1200000 : Int)) := by
  refine ⟨rfl, ?_, by decide⟩
  rw [updateOrderStatusB_sync c1State 1 "delivered" 1200000 c1Order c1Delivery
    rfl rfl rfl]
  rw [findDelivery_after_save c1State.deliveries 1 c1Delivery "delivered" 1200000 rfl]
  simp only [Option.map_some']
  rw [(deliveryPreSave_fields _ _).2.2.2.2, syncDelivery_delivered]

/-- C1 (amended): the delivery sync maps the accepted order status to
the delivery status by the fixed table (delivered to completed, picked
up and in transit to ongoing, anything else to assigned) and saves the
delivery; on picked up and in transit it sets startTime to now only when
unset, but on delivered it sets endTime to now unconditionally,
overwriting any endTime that was already set. -/
theorem deliverySync_mapping :
    ∀ (st : StateB) (orderId : Nat) (status : String) (now : Int)
      (o : OrderB) (d : Delivery),
      validStatusesB.contains status = true →
      findOrderB st.orders orderId = some o →
      findDeliveryForOrder st.deliveries orderId = some d →
      ∃ dd, findDeliveryForOrder
          (updateOrderStatusB st orderId status now false).2.deliveries orderId =
          some dd ∧
        (status = "delivered" →
          dd.status = "completed" ∧ dd.endTime = some now ∧
          dd.startTime = d.startTime) ∧
        ((status = "picked_up" ∨ status = "in_transit") →
          dd.status = "ongoing" ∧ dd.endTime = d.endTime ∧
          dd.startTime = (if d.startTime = none then some now else d.startTime)) ∧
        (status ≠ "delivered" → status ≠ "picked_up" → status ≠ "in_transit" →
          dd.status = "assigned" ∧ dd.startTime = d.startTime ∧
          dd.endTime = d.endTime) := by
  intro st orderId status now o d hv ho hd
  rw [updateOrderStatusB_sync st orderId status now o d hv ho hd]
  refine ⟨deliveryPreSave (syncDelivery d status now) now,
    findDelivery_after_save st.deliveries orderId d status now hd, ?_, ?_, ?_⟩
  · intro hs
    subst hs
    refine ⟨?_, ?_, ?_⟩
    · rw [(deliveryPreSave_fields _ _).2.2.1, syncDelivery_delivered]
    · rw [(deliveryPreSave_fields _ _).2.2.2.2, syncDelivery_delivered]
    · rw [(deliveryPreSave_fields _ _).2.2.2.1, syncDelivery_delivered]
  · intro hs
    have hne : status ≠ "delivered" := by
      rcases hs with h | h <;> subst h <;> decide
    refine ⟨?_, ?_, ?_⟩
    · rw [(deliveryPreSave_fields _ _).2.2.1, syncDelivery_ongoing d status now hs hne]
    · rw [(deliveryPreSave_fields _ _).2.2.2.2, syncDelivery_ongoing d status now hs hne]
      show (if d.startTime = none then { d with startTime := some now } else d).endTime = d.endTime
      split <;> rfl
    · rw [(deliveryPreSave_fields _ _).2.2.2.1, syncDelivery_ongoing d status now hs hne]
      show (if d.startTime = none then { d with startTime := some now } else d).startTime =
        (if d.startTime = none then some now else d.startTime)
      split <;> rfl
  · intro h1 h2 h3
    refine ⟨?_, ?_, ?_⟩
    · rw [(deliveryPreSave_fields _ _).2.2.1, syncDelivery_other d status now h1 h2 h3]
    · rw [(deliveryPreSave_fields _ _).2.2.2.1, syncDelivery_other d status now h1 h2 h3]
    · rw [(deliveryPreSave_fields _ _).2.2.2.2, syncDelivery_other d status now h1 h2 h3]

/-- Witness for the amended C1 at the concrete state: the delivered
transition completes the delivery, overwrites endTime with now and keeps
startTime. -/
theorem deliverySync_mapping_witness :
    ∃ dd, findDeliveryForOrder
        (updateOrderStatusB c1State 1 "delivered" 1200000 false).2.deliveries 1 =
        some dd ∧
      ("delivered" = "delivered" →
        dd.status = "completed" ∧ dd.endTime = some 1200000 ∧
        dd.startTime = some 0) ∧
      (("delivered" = "picked_up" ∨ "delivered" = "in_transit") →
        dd.status = "ongoing" ∧ dd.endTime = some 600000 ∧
        dd.startTime = (if (some (0 : Int)) = none then some 1200000 else some 0)) ∧
      ("delivered" ≠ "delivered" → "delivered" ≠ "picked_up" →
        "delivered" ≠ "in_transit" →
        dd.status = "assigned" ∧ dd.startTime = some 0 ∧
        dd.endTime = some 600000) :=
  deliverySync_mapping c1State 1 "delivered" 1200000 c1Order c1Delivery
    rfl rfl rfl

/-! ### Claim C4 -/

/-- C4: when the order write of the variant-B status update succeeds and
the subsequent delivery save fails, the handler answers 500 but the
order keeps its newly written status: nothing rolls the order write back
and the deliveries collection is left as it was before the failed
save. -/
theorem orderWrite_notRolledBack :
    ∀ (st : StateB) (orderId : Nat) (status : String) (now : Int)
      (o : OrderB) (d : Delivery),
      validStatusesB.contains status = true →
      findOrderB st.orders orderId = some o →
      findDeliveryForOrder st.deliveries orderId = some d →
      (updateOrderStatusB st orderId status now true).1.status = 500 ∧
      findOrderB (updateOrderStatusB st orderId status now true).2.orders orderId =
        some { o with status := status, updatedAt := now } ∧
      (updateOrderStatusB st orderId status now true).2.deliveries =
        st.deliveries := by
  intro st orderId status now o d hv ho hd
  rw [updateOrderStatusB_syncFail st orderId status now o d hv ho hd]
  refine ⟨rfl, ?_, rfl⟩
  have ho2 : List.find? (fun x : OrderB => x.id == orderId) st.orders = some o := ho
  exact find?_map_update (fun x : OrderB => x.id == orderId)
    (fun x => { x with status := status, updatedAt := now })
    (fun x hx => hx) st.orders o ho2

/-- Witness for C4 at the concrete state: a failed delivery save yields
500 while the order keeps the new status confirmed. -/
theorem orderWrite_notRolledBack_witness :
    (updateOrderStatusB c1State 1 "confirmed" 50 true).1.status = 500 ∧
    findOrderB (updateOrderStatusB c1State 1 "confirmed" 50 true).2.orders 1 =
      some { c1Order with status := "confirmed", updatedAt := 50 } ∧
    (updateOrderStatusB c1State 1 "confirmed" 50 true).2.deliveries =
      c1State.deliveries :=
  orderWrite_notRolledBack c1State 1 "confirmed" 50 c1Order c1Delivery
    rfl rfl rfl

/-! ### Claim C6 -/

/-- C6: for every delivery linked to an order transitioned to delivered,
the saved delivery has endTime set to now, and whenever startTime was
already set the saved actualDuration is the whole-minute rounding of the
difference of the two timestamps, as derived by the delivery save
path. -/
theorem delivered_endTime_actualDuration :
    ∀ (st : StateB) (orderId : Nat) (now : Int) (o : OrderB) (d : Delivery),
      findOrderB st.orders orderId = some o →
      findDeliveryForOrder st.deliveries orderId = some d →
      ∃ dd, findDeliveryForOrder
          (updateOrderStatusB st orderId "delivered" now false).2.deliveries
          orderId = some dd ∧
        dd.endTime = some now ∧
        ∀ s : Int, d.startTime = some s →
          dd.actualDuration =
            some (jsRound (((now - s : Int) : Rat) / (1000 * 60))) := by
  intro st orderId now o d ho hd
  rw [updateOrderStatusB_sync st orderId "delivered" now o d rfl ho hd]
  refine ⟨deliveryPreSave (syncDelivery d "delivered" now) now,
    findDelivery_after_save st.deliveries orderId d "delivered" now hd, ?_, ?_⟩
  · rw [(deliveryPreSave_fields _ _).2.2.2.2, syncDelivery_delivered]
  · intro s hs
    rw [deliveryPreSave_actualDuration (syncDelivery d "delivered" now) now s now
      ?startTimeEq ?endTimeEq]
    case startTimeEq =>
      rw [syncDelivery_delivered]
      exact hs
    case endTimeEq =>
      rw [syncDelivery_delivered]

/-- Witness for C6 at the concrete state: started at 0 and delivered at
1200000 milliseconds, the saved delivery carries the rounded minute
duration. -/
theorem delivered_endTime_actualDuration_witness :
    ∃ dd, findDeliveryForOrder
        (updateOrderStatusB c1State 1 "delivered" 1200000 false).2.deliveries 1 =
        some dd ∧
      dd.endTime = some 1200000 ∧
      ∀ s : Int, (some (0 : Int)) = some s →
        dd.actualDuration =
          some (jsRound (((1200000 - s : Int) : Rat) / (1000 * 60))) :=
  delivered_endTime_actualDuration c1State 1 1200000 c1Order c1Delivery rfl rfl

/-! ### Claim C2 -/

/-- The rejection condition the customer delete handler actually
implements, in propositional form. -/
def customerHasActiveOrder (db : AppDB) (id : Nat) : Prop :=
  ∃ o ∈ db.orders, o.customer = id ∧ o.status ∈ customerActiveOrderStatuses

instance (db : AppDB) (id : Nat) : Decidable (customerHasActiveOrder db id) := by
  unfold customerHasActiveOrder
  infer_instance

/-- The rejection condition the driver delete handler actually
implements, in propositional form. -/
def driverHasActiveWork (db : AppDB) (id : Nat) : Prop :=
  (∃ d ∈ db.deliveries, d.driver = id ∧ d.status ∈ driverActiveDeliveryStatuses) ∨
  (∃ o ∈ db.orders, o.driver = some id ∧ o.status ∈ driverActiveOrderStatuses)

instance (db : AppDB) (id : Nat) : Decidable (driverHasActiveWork db id) := by
  unfold driverHasActiveWork
  infer_instance

lemma customerActiveOrders_pos_iff (db : AppDB) (id : Nat) :
    0 < (db.orders.filter (fun o =>
      o.customer == id && customerActiveOrderStatuses.contains o.status)).length ↔
    customerHasActiveOrder db id := by
  rw [filter_length_pos_iff]
  constructor
  · rintro ⟨o, ho, hp⟩
    rw [Bool.and_eq_true, beq_iff_eq] at hp
    exact ⟨o, ho, hp.1, by simpa using hp.2⟩
  · rintro ⟨o, ho, hc, hs⟩
    refine ⟨o, ho, ?_⟩
    rw [Bool.and_eq_true, beq_iff_eq]
    exact ⟨hc, by simpa using hs⟩

lemma driverActiveWork_pos_iff (db : AppDB) (id : Nat) :
    (0 < (db.deliveries.filter (fun d =>
        d.driver == id && driverActiveDeliveryStatuses.contains d.status)).length ∨
     0 < (db.orders.filter (fun o =>
        o.driver == some id && driverActiveOrderStatuses.contains o.status)).length) ↔
    driverHasActiveWork db id := by
  rw [filter_length_pos_iff, filter_length_pos_iff]
  constructor
  · rintro (⟨d, hd, hp⟩ | ⟨o, ho, hp⟩)
    · rw [Bool.and_eq_true, beq_iff_eq] at hp
      exact Or.inl ⟨d, hd, hp.1, by simpa using hp.2⟩
    · rw [Bool.and_eq_true, beq_iff_eq] at hp
      exact Or.inr ⟨o, ho, hp.1, by simpa using hp.2⟩
  · rintro (⟨d, hd, hc, hs⟩ | ⟨o, ho, hc, hs⟩)
    · refine Or.inl ⟨d, hd, ?_⟩
      rw [Bool.and_eq_true, beq_iff_eq]
      exact ⟨hc, by simpa using hs⟩
    · refine Or.inr ⟨o, ho, ?_⟩
      rw [Bool.and_eq_true, beq_iff_eq]
      exact ⟨hc, by simpa using hs⟩

/-- Database with one restaurant referenced by one pending (hence
non-terminal) order. -/
def c2Db : AppDB :=
  { users := []
    restaurants := [{ id := 3, name := "Deliver Now Store", image := none,
                      coverImage := none, isActive := true }]
    orders := [{ id := 1, orderNumber := "ORD-1", customer := 4, driver := none,
                 restaurant := 3, items := [], status := "pending",
                 totalAmount := 10, updatedAt := 0 }]
    deliveries := [] }

/-- Counterexample to C2 as stated: a restaurant referenced by a
non-terminal order is nevertheless deleted successfully; the restaurant
delete handler consults no Order or Delivery at all. -/
theorem deleteRestaurant_ignores_refs :
    restaurantHasNonTerminalRef c2Db 3 ∧
    (deleteRestaurant c2Db 3).1.status = 200 ∧
    (deleteRestaurant c2Db 3).1.success = true ∧
    (deleteRestaurant c2Db 3).2.restaurants = [] := by
  refine ⟨by decide, rfl, rfl, rfl⟩

/-- C2 (amended): customer deletion is rejected with 400 and no state
change exactly when some order referencing the customer has status
pending, confirmed, picked up or in transit (deliveries and orders in
status assigned are not consulted), and succeeds with removal otherwise;
driver deletion is rejected exactly when some delivery with status
assigned or ongoing, or some order with status confirmed, picked up or
in transit, references the driver (pending and assigned orders are not
consulted), and succeeds with removal otherwise; restaurant deletion
performs no reference check and always succeeds for an existing
restaurant, whatever orders or deliveries reference it. -/
theorem deleteOps_behavior :
    (∀ (db : AppDB) (id : Nat) (u : User),
      db.users.find? (fun x => x.id == id) = some u →
      u.userType = "customer" →
      (customerHasActiveOrder db id →
        deleteCustomer db id =
          (⟨400, false, "Cannot delete customer with active orders"⟩, db)) ∧
      (¬ customerHasActiveOrder db id →
        deleteCustomer db id =
          (⟨200, true, "Customer deleted successfully"⟩,
           { db with users := db.users.filter (fun x => x.id != id) }))) ∧
    (∀ (db : AppDB) (id : Nat) (u : User),
      db.users.find? (fun x => x.id == id) = some u →
      u.userType = "driver" →
      (driverHasActiveWork db id →
        deleteDriver db id =
          (⟨400, false, "Cannot delete driver with active deliveries or orders"⟩,
           db)) ∧
      (¬ driverHasActiveWork db id →
        deleteDriver db id =
          (⟨200, true, "Driver deleted successfully"⟩,
           { db with users := db.users.filter (fun x => x.id != id) }))) ∧
    (∀ (db : AppDB) (id : Nat) (r : Restaurant),
      db.restaurants.find? (fun x => x.id == id) = some r →
      deleteRestaurant db id =
        (⟨200, true, "Restaurant deleted successfully"⟩,
         { db with restaurants := db.restaurants.filter (fun x => x.id != id) })) := by
  refine ⟨?_, ?_, ?_⟩
  · intro db id u hfu hut
    have hx : (u.userType ≠ "customer") = False := by simp [hut]
    constructor
    · intro hactive
      have hpos := (customerActiveOrders_pos_iff db id).2 hactive
      simp only [deleteCustomer, hfu, hx, if_false]
      rw [if_pos hpos]
    · intro hnot
      have hzero : ¬ 0 < (db.orders.filter (fun o =>
          o.customer == id && customerActiveOrderStatuses.contains o.status)).length :=
        fun hp => hnot ((customerActiveOrders_pos_iff db id).1 hp)
      simp only [deleteCustomer, hfu, hx, if_false]
      rw [if_neg hzero]
  · intro db id u hfu hut
    have hx : (u.userType ≠ "driver") = False := by simp [hut]
    constructor
    · intro hactive
      have hpos := (driverActiveWork_pos_iff db id).2 hactive
      simp only [deleteDriver, hfu, hx, if_false]
      rw [if_pos ?cond]
      case cond =>
        rw [Bool.or_eq_true, decide_eq_true_eq, decide_eq_true_eq]
        exact hpos
    · intro hnot
      have hzero := fun hp => hnot ((driverActiveWork_pos_iff db id).1 hp)
      simp only [deleteDriver, hfu, hx, if_false]
      rw [if_neg ?cond]
      case cond =>
        rw [Bool.or_eq_true, decide_eq_true_eq, decide_eq_true_eq]
        intro hor
        exact hzero hor
  · intro db id r hfr
    simp only [deleteRestaurant, hfr]

/-- Witness for the amended C2 at concrete databases: a customer with a
pending order cannot be deleted, a driver with an ongoing delivery
cannot be deleted, and a restaurant referenced by a pending order is
deleted anyway. -/
theorem deleteOps_behavior_witness :
    deleteCustomer
        { users := [{ id := 4, name := "Ayanda", email := "a@x.com",
                      phone := "070", userType := "customer", isActive := true }]
          restaurants := [], orders := c2Db.orders, deliveries := [] } 4 =
      (⟨400, false, "Cannot delete customer with active orders"⟩,
       { users := [{ id := 4, name := "Ayanda", email := "a@x.com",
                     phone := "070", userType := "customer", isActive := true }]
         restaurants := [], orders := c2Db.orders, deliveries := [] }) ∧
    deleteDriver
        { users := [{ id := 5, name := "Sipho", email := "s@x.com",
                      phone := "072", userType := "driver", isActive := true }]
          restaurants := [], orders := []
          deliveries := [{ id := 21, order := 1, driver := 5,
                           status := "ongoing", startTime := some 0,
                           endTime := none, actualDuration := none,
                           updatedAt := 0 }] } 5 =
      (⟨400, false, "Cannot delete driver with active deliveries or orders"⟩,
       { users := [{ id := 5, name := "Sipho", email := "s@x.com",
                     phone := "072", userType := "driver", isActive := true }]
         restaurants := [], orders := []
         deliveries := [{ id := 21, order := 1, driver := 5,
                          status := "ongoing", startTime := some 0,
                          endTime := none, actualDuration := none,
                          updatedAt := 0 }] }) ∧
    deleteRestaurant c2Db 3 =
      (⟨200, true, "Restaurant deleted successfully"⟩,
       { c2Db with restaurants := c2Db.restaurants.filter (fun x => x.id != 3) }) :=
  ⟨(deleteOps_behavior.1
      { users := [{ id := 4, name := "Ayanda", email := "a@x.com",
                    phone := "070", userType := "customer", isActive := true }]
        restaurants := [], orders := c2Db.orders, deliveries := [] } 4
      { id := 4, name := "Ayanda", email := "a@x.com", phone := "070",
        userType := "customer", isActive := true } rfl rfl).1 (by decide),
   (deleteOps_behavior.2.1
      { users := [{ id := 5, name := "Sipho", email := "s@x.com",
                    phone := "072", userType := "driver", isActive := true }]
        restaurants := [], orders := []
        deliveries := [{ id := 21, order := 1, driver := 5,
                         status := "ongoing", startTime := some 0,
                         endTime := none, actualDuration := none,
                         updatedAt := 0 }] } 5
      { id := 5, name := "Sipho", email := "s@x.com", phone := "072",
        userType := "driver", isActive := true } rfl rfl).1 (by decide),
   deleteOps_behavior.2.2 c2Db 3
      { id := 3, name := "Deliver Now Store", image := none,
        coverImage := none, isActive := true } rfl⟩

end DeliverNow
